import Mathlib

/-!
Verification of the GPU resource/pipeline abstraction layer of the
npr-sandbox repository.  The definitions below are a shallow embedding of
the TypeScript source (`WebGPUContext` and its scene renderers): GPU
resources are identified by natural-number ids, device-side freshness is
modelled by an id counter threaded through the constructors, and each
source function becomes an executable Lean function over that state.
-/

namespace NPR

/-! ## Device / surface acquisition (`WebGPUContext.create`) -/

/-- Abstract options passed to the context acquisition entry point
(`IWebGPUContextOptions`): the canvas, primitive state and the optional
depth-stencil state are opaque payloads identified by numbers. -/
structure ContextOptions where
  canvas : Nat
  primitiveState : Nat
  depthStencilState : Option Nat := none
  msaa : Option Nat := none
deriving DecidableEq, Repr

/-- The constructed `WebGPUContext` object.  The private constructor copies
the options into the fields and clears the screenshot flag. -/
structure WebGPUCtx where
  context : Nat
  device : Nat
  canvas : Nat
  primitiveState : Nat
  depthStencilState : Option Nat
  msaa : Option Nat
  takeScreenshot : Bool
deriving DecidableEq, Repr

/-- The host environment seen by `create`: whether `navigator.gpu` exists and
whether each of the three asynchronous acquisition steps succeeds. -/
structure Host where
  gpuSupported : Bool
  adapterAvailable : Bool
  deviceAvailable : Bool
  contextAvailable : Bool
deriving DecidableEq, Repr

/-- The static class state: `WebGPUContext._instance`. -/
structure CreateState where
  inst : Option WebGPUCtx
deriving DecidableEq, Repr

/-- The result record `WebGpuContextInitResult` with optional `instance` and
`error` fields. -/
structure InitResult where
  inst : Option WebGPUCtx
  error : Option String
deriving DecidableEq, Repr

/-- Shallow embedding of `WebGPUContext.create` (src/unnamed/part_000,
lines 50-89): return the existing instance when one is set, otherwise walk
the four acquisition steps, returning a distinct error string at the first
failing step, and on success construct, store and return the instance. -/
def WebGPUContext.create (host : Host) (options : ContextOptions)
    (st : CreateState) : InitResult × CreateState :=
  match st.inst with
  | some i => (⟨some i, none⟩, st)
  | none =>
    if !host.gpuSupported then
      (⟨none, some "WebGPU not supported"⟩, st)
    else if !host.adapterAvailable then
      (⟨none, some "Failed to get WebGPU adapter"⟩, st)
    else if !host.deviceAvailable then
      (⟨none, some "Failed to get WebGPU device"⟩, st)
    else if !host.contextAvailable then
      (⟨none, some "Failed to get WebGPU context"⟩, st)
    else
      let i : WebGPUCtx :=
        { context := options.canvas
          device := 0
          canvas := options.canvas
          primitiveState := options.primitiveState
          depthStencilState := options.depthStencilState
          msaa := options.msaa
          takeScreenshot := false }
      (⟨some i, none⟩, ⟨some i⟩)

/-! ## Bind-group builder (`_createUniformBindGroup`) -/

/-- The `type` discriminant of an `IBindGroupInput`. -/
inductive BindInputType where
  | buffer
  | texture
  | sampler
deriving DecidableEq, Repr

/-- Shallow embedding of `IBindGroupInput` (part_000, lines 12-19): a typed
descriptor carrying a shader-stage visibility bitmask, an optional readonly
flag, and the resource (buffer / texture / sampler id) for its type. -/
structure BindGroupInput where
  type : BindInputType
  visibility : Nat
  readonly : Bool := false
  buffer : Option Nat := none
  texture : Option Nat := none
  sampler : Option Nat := none
deriving DecidableEq, Repr

/-- The `buffer` field of a buffer layout entry: `{}` (the WebGPU default,
an unrestricted uniform-style entry) or `{type: "read-only-storage"}`. -/
inductive LayoutBufferType where
  | defaultUniform
  | readOnlyStorage
deriving DecidableEq, Repr

/-- The typed part of a `GPUBindGroupLayoutEntry`. -/
inductive LayoutResource where
  | buffer (t : LayoutBufferType)
  | texture
  | sampler
deriving DecidableEq, Repr

/-- One entry of the produced `GPUBindGroupLayout`. -/
structure LayoutEntry where
  binding : Nat
  visibility : Nat
  resource : LayoutResource
deriving DecidableEq, Repr

/-- A resource bound into a bind group.  A texture is never bound directly:
`createView()` produces a view object, modelled as the source texture id
paired with a fresh view id drawn from the device counter. -/
inductive BoundResource where
  | buffer (id : Nat)
  | textureView (tex : Nat) (view : Nat)
  | sampler (id : Nat)
deriving DecidableEq, Repr

/-- One entry of the produced `GPUBindGroup`. -/
structure BindGroupEntry where
  binding : Nat
  resource : BoundResource
deriving DecidableEq, Repr

/-- The loop body of `_createUniformBindGroup` (part_000, lines 190-210):
walk the inputs with the running binding index `i`, pushing one layout entry
and one group entry per input.  `v` is the device's fresh-view counter,
bumped by each `texture.createView()` call. -/
def buildBindGroupEntries : List BindGroupInput → Nat → Nat →
    List LayoutEntry × List BindGroupEntry × Nat
  | [], _, v => ([], [], v)
  | input :: rest, i, v =>
    match input.type with
    | .buffer =>
      let layoutBuf := if input.readonly then LayoutBufferType.readOnlyStorage
        else LayoutBufferType.defaultUniform
      let le : LayoutEntry := ⟨i, input.visibility, .buffer layoutBuf⟩
      let ge : BindGroupEntry := ⟨i, .buffer (input.buffer.getD 0)⟩
      let (ls, gs, v') := buildBindGroupEntries rest (i + 1) v
      (le :: ls, ge :: gs, v')
    | .texture =>
      let le : LayoutEntry := ⟨i, input.visibility, .texture⟩
      let ge : BindGroupEntry := ⟨i, .textureView (input.texture.getD 0) v⟩
      let (ls, gs, v') := buildBindGroupEntries rest (i + 1) (v + 1)
      (le :: ls, ge :: gs, v')
    | .sampler =>
      let le : LayoutEntry := ⟨i, input.visibility, .sampler⟩
      let ge : BindGroupEntry := ⟨i, .sampler (input.sampler.getD 0)⟩
      let (ls, gs, v') := buildBindGroupEntries rest (i + 1) v
      (le :: ls, ge :: gs, v')

/-- The pair returned by `_createUniformBindGroup` (an `IUniformBindGroup`):
the layout is created from the layout entries and the bind group from the
same ordered entry list.  `viewCounter` is the device's fresh-view counter
before the call. -/
def createUniformBindGroup (inputs : List BindGroupInput) (viewCounter : Nat) :
    (List LayoutEntry × List BindGroupEntry) × Nat :=
  let (ls, gs, v') := buildBindGroupEntries inputs 0 viewCounter
  ((ls, gs), v')

/-! ## Render-target builder (`_createRenderTarget`) -/

/-- An rgba clear value, embedded over `ℚ`. -/
structure ClearValue where
  r : ℚ
  g : ℚ
  b : ℚ
  a : ℚ
deriving DecidableEq, Repr

/-- Load operation of an attachment. -/
inductive LoadOp where
  | clear
  | load
deriving DecidableEq, Repr

/-- Store operation of an attachment. -/
inductive StoreOp where
  | store
  | discard
deriving DecidableEq, Repr

/-- A texture view: the viewed texture id plus the view's own fresh id. -/
structure TextureView where
  tex : Nat
  view : Nat
deriving DecidableEq, Repr

/-- A `GPURenderPassColorAttachment`. -/
structure ColorAttachment where
  view : TextureView
  resolveTarget : Option TextureView
  clearValue : ClearValue
  loadOp : LoadOp
  storeOp : StoreOp
deriving DecidableEq, Repr

/-- A `GPURenderPassDepthStencilAttachment`. -/
structure DepthStencilAttachment where
  view : TextureView
  depthClearValue : ℚ
  depthLoadOp : LoadOp
  depthStoreOp : StoreOp
  stencilClearValue : ℚ
  stencilLoadOp : LoadOp
  stencilStoreOp : StoreOp
deriving DecidableEq, Repr

/-- A `GPURenderPassDescriptor`. -/
structure RenderPassDescriptor where
  colorAttachments : List ColorAttachment
  depthStencilAttachment : Option DepthStencilAttachment
deriving DecidableEq, Repr

/-- A texture created by `device.createTexture` during render-target
construction, with the fields the claims observe. -/
structure CreatedTexture where
  id : Nat
  width : Nat
  height : Nat
  sampleCount : Nat
deriving DecidableEq, Repr

/-- Device-side state used by the render-target builder: a fresh-id counter
(shared by textures and views) and the log of textures created so far. -/
structure DeviceState where
  nextId : Nat
  created : List CreatedTexture
deriving DecidableEq, Repr

/-- `texture.createView()`: a fresh view of `tex`. -/
def createView (tex : Nat) (st : DeviceState) : TextureView × DeviceState :=
  (⟨tex, st.nextId⟩, ⟨st.nextId + 1, st.created⟩)

/-- `device.createTexture` with the given size and sample count. -/
def deviceCreateTexture (w h sc : Nat) (st : DeviceState) :
    CreatedTexture × DeviceState :=
  let t : CreatedTexture := ⟨st.nextId, w, h, sc⟩
  (t, ⟨st.nextId + 1, t :: st.created⟩)

/-- Shallow embedding of `_createRenderTarget` (part_000, lines 106-151).
`msaa` is the optional sample-count argument; the source guards the MSAA
branch with JavaScript truthiness (`if (msaa)`), so a supplied `0` behaves
like an absent argument. -/
def createRenderTarget (canvasW canvasH : Nat) (colorAttachmentTexture : Nat)
    (clearValue : ClearValue) (msaa : Option Nat) (depthTexture : Option Nat)
    (st : DeviceState) : RenderPassDescriptor × DeviceState :=
  let (textureView, st) := createView colorAttachmentTexture st
  let (colorAttachment, st) :=
    if msaa.getD 0 ≠ 0 then
      let (msaaTexture, st) := deviceCreateTexture canvasW canvasH (msaa.getD 0) st
      let (msaaView, st) := createView msaaTexture.id st
      (({ view := msaaView
          resolveTarget := some textureView
          clearValue := clearValue
          loadOp := .clear
          storeOp := .store } : ColorAttachment), st)
    else
      (({ view := textureView
          resolveTarget := none
          clearValue := clearValue
          loadOp := .clear
          storeOp := .store } : ColorAttachment), st)
  match depthTexture with
  | none => (⟨[colorAttachment], none⟩, st)
  | some d =>
    let (depthView, st) := createView d st
    (⟨[colorAttachment],
      some { view := depthView
             depthClearValue := 1
             depthLoadOp := .clear
             depthStoreOp := .store
             stencilClearValue := 0
             stencilLoadOp := .clear
             stencilStoreOp := .store }⟩, st)

/-- Shallow embedding of the `_createRenderTarget` variant in
src/src/core/webgpu-context.ts (lines 93-139): same construction with the
clear value fixed to red, the context's MSAA setting, and the current
surface texture as the color attachment. -/
def createRenderTargetLegacy (canvasW canvasH : Nat) (surfaceTexture : Nat)
    (ctxMsaa : Option Nat) (depthTexture : Option Nat) (st : DeviceState) :
    RenderPassDescriptor × DeviceState :=
  createRenderTarget canvasW canvasH surfaceTexture ⟨1, 0, 0, 1⟩ ctxMsaa
    depthTexture st

/-! ## Resource builder (`_createGPUBuffer`) -/

/-- The payload accepted by `_createGPUBuffer`: a `Float32Array` (elements
embedded as rationals) or a `Uint16Array`. -/
inductive TypedArrayData where
  | float32 (elems : List ℚ)
  | uint16 (elems : List Nat)
deriving DecidableEq, Repr

/-- `data.byteLength`: 4 bytes per float32 element, 2 per uint16 element. -/
def TypedArrayData.byteLength : TypedArrayData → Nat
  | .float32 xs => 4 * xs.length
  | .uint16 xs => 2 * xs.length

/-- A GPU buffer as observed by the claims: its size, usage flags, map
state and the contents of the mapped region. -/
structure ModelBuffer where
  size : Nat
  usage : Nat
  mapped : Bool
  contents : Option TypedArrayData
deriving DecidableEq, Repr

/-- Shallow embedding of `_createGPUBuffer` (part_000, lines 154-172),
returning the three successive buffer states: after `createBuffer` with
`mappedAtCreation: true`, after the typed-array `set` into the mapped
range, and after `unmap` (the returned buffer). -/
def createGPUBuffer (data : TypedArrayData) (usage : Nat) :
    ModelBuffer × ModelBuffer × ModelBuffer :=
  let createdBuffer : ModelBuffer :=
    { size := data.byteLength, usage := usage, mapped := true, contents := none }
  let writtenBuffer : ModelBuffer :=
    match data with
    | .float32 xs => { createdBuffer with contents := some (.float32 xs) }
    | .uint16 xs => { createdBuffer with contents := some (.uint16 xs) }
  let unmappedBuffer : ModelBuffer := { writtenBuffer with mapped := false }
  (createdBuffer, writtenBuffer, unmappedBuffer)

/-! ## Animated mesh renderer frame (`render_obj_model`) -/

/-- Fresh buffer id from the device counter (`device.createBuffer`). -/
def createBufferId (st : DeviceState) : Nat × DeviceState :=
  (st.nextId, { st with nextId := st.nextId + 1 })

/-- The five persistent uniform buffers created by `render_obj_model` before
entering its frame loop: projection, transformation, normal matrix, light
direction and view direction. -/
structure ObjPersistentBuffers where
  proj : Nat
  tf : Nat
  nm : Nat
  ld : Nat
  vd : Nat
deriving DecidableEq, Repr

/-- The state carried across frames of `render_obj_model`: the tracked
canvas dimensions, the current depth texture and the device counter. -/
structure ObjFrameState where
  canvasW : Nat
  canvasH : Nat
  depthTexture : Nat
  dev : DeviceState
deriving DecidableEq, Repr

/-- The observable effects of one execution of the `render` closure. -/
structure ObjFrameTrace where
  reconfigured : Bool
  destroyedTextures : List Nat
  createdDepthTexture : Option Nat
  projStagingBuffer : Option Nat
  stagingBuffers : List Nat
  copies : List (Nat × Nat)
  pass : RenderPassDescriptor
deriving DecidableEq, Repr

/-- Shallow embedding of the per-frame closure of `render_obj_model`
(part_000, lines 478-536).  `currentW`/`currentH` is the drawable surface's
current backing-store size (`clientWidth * devicePixelRatio`).  When it
differs from the tracked canvas size the frame updates the tracked size,
reconfigures the surface, destroys and recreates the depth texture and
creates a projection staging buffer; every frame then creates model-view,
normal and view-direction staging buffers, records the
`copyBufferToBuffer` commands (projection only when the staging buffer was
created) and records one render pass built by `_createRenderTarget`. -/
def objModelFrame (msaa : Option Nat) (surfaceTexture : Nat)
    (bufs : ObjPersistentBuffers) (currentW currentH : Nat)
    (s : ObjFrameState) : ObjFrameState × ObjFrameTrace :=
  let resized : Bool := currentW != s.canvasW || currentH != s.canvasH
  let (s₁, destroyed, projStaging) :=
    if resized then
      let (newDepth, dev) :=
        deviceCreateTexture currentW currentH (msaa.getD 1) s.dev
      let (p, dev) := createBufferId dev
      ((⟨currentW, currentH, newDepth.id, dev⟩ : ObjFrameState),
        [s.depthTexture], some p)
    else (s, [], none)
  let (mvStaging, dev) := createBufferId s₁.dev
  let (nmStaging, dev) := createBufferId dev
  let (vdStaging, dev) := createBufferId dev
  let projCopies := match projStaging with
    | some p => [(p, bufs.proj)]
    | none => []
  let copies := projCopies ++
    [(mvStaging, bufs.tf), (nmStaging, bufs.nm),
     (vdStaging, bufs.vd), (vdStaging, bufs.ld)]
  let (passDesc, dev) := createRenderTarget s₁.canvasW s₁.canvasH
    surfaceTexture ⟨1, 0, 0, 1⟩ msaa (some s₁.depthTexture) dev
  ({ s₁ with dev := dev },
   { reconfigured := resized
     destroyedTextures := destroyed
     createdDepthTexture := if resized then some s₁.depthTexture else none
     projStagingBuffer := projStaging
     stagingBuffers := projStaging.toList ++ [mvStaging, nmStaging, vdStaging]
     copies := copies
     pass := passDesc })

/-! ## Text rasterizer texture sizing (`render_text`) -/

/-- `Math.clz32` restricted to the naturals below `2^32`: the count of
leading zero bits of the 32-bit representation. -/
def clz32 (n : Nat) : Nat := 32 - n.size

/-- The texture width computed by `render_text` (part_000, line 719):
`1 << (32 - Math.clz32(Math.ceil(textMeasure.width)))`. -/
def renderTextNearestPow2 (w : ℚ) : Nat := 1 <<< (32 - clz32 ⌈w⌉₊)

/-- The `(width, height)` of the GPU texture created by `render_text`
(part_000, lines 719-720): the power-of-two width and the font size. -/
def renderTextTextureSize (w : ℚ) (fontSize : Nat) : Nat × Nat :=
  (renderTextNearestPow2 w, fontSize)

/-! ## Gaussian blur kernel (`render_gaussian_blur`) -/

/-- The `kernelSize` constant of `render_gaussian_blur` (part_000, line 558). -/
def gaussKernelSize : ℤ := 8

/-- The `sigma` constant of `render_gaussian_blur` (part_000, line 559). -/
noncomputable def gaussSigma : ℝ := 8

/-- One sample of the kernel loop body (part_000, line 563):
`1 / sqrt(2 π σ²) * exp(-y² / (2 σ²))`, over the reals. -/
noncomputable def gaussianSample (y : ℤ) : ℝ :=
  1 / Real.sqrt (2 * Real.pi * gaussSigma * gaussSigma) *
    Real.exp (-((y : ℝ) * (y : ℝ)) / (2 * gaussSigma * gaussSigma))

/-- The `kValues` array built by the loop
`for (y = -kernelSize; y <= kernelSize; y += 1)` (part_000, lines 562-566):
the 17 samples at `y = -8..8` in order. -/
noncomputable def gaussKValues : List ℝ :=
  (List.range 17).map fun i : ℕ => gaussianSample ((i : ℤ) - 8)

/-- The running `intensity` accumulator (part_000, lines 560-564): the sum
of all samples.  The source computes it but never uses it. -/
noncomputable def gaussIntensity : ℝ := gaussKValues.sum

/-- The data uploaded to the kernel storage buffer (part_000, line 567):
the raw `kValues`, with no normalization. -/
noncomputable def gaussKernelBufferData : List ℝ := gaussKValues

/-! ## Watercolor pass chain (`render_watercolor`) -/

/-- The textures flowing through the watercolor pipeline. -/
inductive WCTexture where
  | sceneColor
  | sceneControl
  | sceneDepth
  | vBlurred
  | vBleeded
  | vControl
  | hBlurred
  | hBleeded
  | paperImage
  | paperSurface
  | presentSurface
deriving DecidableEq, Repr

/-- One watercolor pass: its shader name and the textures it reads and
writes. -/
structure WCPass where
  shader : String
  inputs : List WCTexture
  outputs : List WCTexture
deriving DecidableEq, Repr

/-- Modelled from the spec: the body of `render_watercolor` is not in the
source tree (only its caller, src/unnamed/part_006, and four of the five
shaders are), so the pass chain is reconstructed from the spec's §2 pass
order (scene → vertical blur → horizontal blur → paper-surface normal →
stylize), its §4.6 pass descriptions, and its §8 statement that pass 3's
input textures are exactly the control output of pass 1 and the
blurred/bled outputs of pass 2.  The texture wiring of the passes whose
shaders are in src follows those shaders' binding declarations:
scene.wgsl writes the color and control render targets; mrt_blur_v.wgsl
reads the scene color, control and depth textures and writes blurred,
bleed and control outputs; the stylize shader reads the color, control,
blurred, bleeded and paper-surface textures; the surface shader reads only
the paper image. -/
def watercolorPasses : List WCPass :=
  [ { shader := "scene"
      inputs := []
      outputs := [.sceneColor, .sceneControl, .sceneDepth] },
    { shader := "mrt_blur_v"
      inputs := [.sceneColor, .sceneControl, .sceneDepth]
      outputs := [.vBlurred, .vBleeded, .vControl] },
    { shader := "mrt_blur_h"
      inputs := [.vBlurred, .vBleeded, .sceneControl]
      outputs := [.hBlurred, .hBleeded] },
    { shader := "surface"
      inputs := [.paperImage]
      outputs := [.paperSurface] },
    { shader := "stylize"
      inputs := [.sceneColor, .sceneControl, .hBlurred, .hBleeded,
                 .paperSurface]
      outputs := [.presentSurface] } ]

/-- The strict-chain reading of the claim: every pass after the first
consumes at least one texture output of the immediately preceding pass. -/
def consumesPreviousPass (passes : List WCPass) : Prop :=
  ∀ i (h : i + 1 < passes.length),
    ∃ t, t ∈ (passes.get ⟨i + 1, h⟩).inputs ∧
      t ∈ (passes.get ⟨i, Nat.lt_of_succ_lt h⟩).outputs

/-! ## Theorems -/

/-- Helper: `create` on a state that already holds an instance returns that
instance, with no error, and leaves the state unchanged. -/
theorem create_returns_existing (h : Host) (o : ContextOptions)
    (st : CreateState) (i : WebGPUCtx) (hst : st.inst = some i) :
    WebGPUContext.create h o st = (⟨some i, none⟩, st) := by
  unfold WebGPUContext.create
  rw [hst]

/-- Helper: when `create` returns an instance, the resulting static state
holds that same instance. -/
theorem create_result_state (h : Host) (o : ContextOptions) (st : CreateState)
    (i : WebGPUCtx) (hres : (WebGPUContext.create h o st).1.inst = some i) :
    ((WebGPUContext.create h o st).2).inst = some i := by
  unfold WebGPUContext.create at hres ⊢
  cases hst : st.inst with
  | some j => simp_all
  | none => split_ifs at hres ⊢ <;> simp_all

/-- C2: for every two successive calls to `WebGPUContext.create`, if the
first call succeeds (returns an instance `i`), the second call — with any
host environment and any options — returns that same instance `i` with no
error and leaves the static state unchanged; the second call's options are
ignored. -/
theorem create_idempotent (h₁ h₂ : Host) (o₁ o₂ : ContextOptions)
    (st₀ : CreateState) (i : WebGPUCtx)
    (hfirst : (WebGPUContext.create h₁ o₁ st₀).1.inst = some i) :
    WebGPUContext.create h₂ o₂ (WebGPUContext.create h₁ o₁ st₀).2 =
      (⟨some i, none⟩, (WebGPUContext.create h₁ o₁ st₀).2) :=
  create_returns_existing h₂ o₂ _ i (create_result_state h₁ o₁ st₀ i hfirst)

/-- Witness for C2 at a concrete input: a successful first call with one
option set followed by a second call with different options. -/
theorem create_idempotent_witness :
    WebGPUContext.create ⟨false, false, false, false⟩ ⟨9, 9, some 9, some 4⟩
        (WebGPUContext.create ⟨true, true, true, true⟩ ⟨1, 2, none, none⟩
          ⟨none⟩).2 =
      (⟨some ⟨1, 0, 1, 2, none, none, false⟩, none⟩,
        (WebGPUContext.create ⟨true, true, true, true⟩ ⟨1, 2, none, none⟩
          ⟨none⟩).2) :=
  create_idempotent ⟨true, true, true, true⟩ ⟨false, false, false, false⟩
    ⟨1, 2, none, none⟩ ⟨9, 9, some 9, some 4⟩ ⟨none⟩
    ⟨1, 0, 1, 2, none, none, false⟩ (by decide)

/-- C3: on a fresh state, `create` returns a result carrying exactly one of
an instance or an error; each of the four failure conditions (GPU API
absent, adapter failure, device failure, surface/context failure) yields
its own distinct error value, an instance is returned exactly when all
four steps succeed, and a failing call leaves the state unchanged (no
retry, nothing is cached). -/
theorem create_error_taxonomy (host : Host) (o : ContextOptions)
    (st : CreateState) (hfresh : st.inst = none) :
    ((WebGPUContext.create host o st).1.inst.isSome ↔
      (WebGPUContext.create host o st).1.error = none) ∧
    ((WebGPUContext.create host o st).1.error = none ↔
      host.gpuSupported ∧ host.adapterAvailable ∧ host.deviceAvailable ∧
        host.contextAvailable) ∧
    (host.gpuSupported = false →
      (WebGPUContext.create host o st).1.error = some "WebGPU not supported") ∧
    (host.gpuSupported = true → host.adapterAvailable = false →
      (WebGPUContext.create host o st).1.error =
        some "Failed to get WebGPU adapter") ∧
    (host.gpuSupported = true → host.adapterAvailable = true →
      host.deviceAvailable = false →
      (WebGPUContext.create host o st).1.error =
        some "Failed to get WebGPU device") ∧
    (host.gpuSupported = true → host.adapterAvailable = true →
      host.deviceAvailable = true → host.contextAvailable = false →
      (WebGPUContext.create host o st).1.error =
        some "Failed to get WebGPU context") ∧
    List.Pairwise (fun a b => a ≠ b)
      ["WebGPU not supported", "Failed to get WebGPU adapter",
       "Failed to get WebGPU device", "Failed to get WebGPU context"] ∧
    ((WebGPUContext.create host o st).1.error ≠ none →
      (WebGPUContext.create host o st).2 = st) := by
  cases hg : host.gpuSupported <;> cases ha : host.adapterAvailable <;>
    cases hd : host.deviceAvailable <;> cases hc : host.contextAvailable <;>
      refine ⟨?_, ?_, ?_, ?_, ?_, ?_, by decide, ?_⟩ <;>
        simp [WebGPUContext.create, hfresh, hg, ha, hd, hc]

/-- Witness for C3 at a concrete input: a host whose device step fails. -/
theorem create_error_taxonomy_witness :
    ((WebGPUContext.create ⟨true, true, false, true⟩ ⟨0, 0, none, none⟩
        ⟨none⟩).1.error = some "Failed to get WebGPU device") ∧
    ((WebGPUContext.create ⟨true, true, false, true⟩ ⟨0, 0, none, none⟩
        ⟨none⟩).2 = ⟨none⟩) := by
  have h := create_error_taxonomy ⟨true, true, false, true⟩ ⟨0, 0, none, none⟩
    ⟨none⟩ rfl
  exact ⟨h.2.2.2.2.1 rfl rfl rfl, h.2.2.2.2.2.2.2 (by decide)⟩

/-- C9: `_createGPUBuffer` creates the buffer in the mapped state with size
equal to the payload's byte length, copies the payload into the mapped
region (so reading the mapped region before unmap yields the identical
sequence), and unmaps before returning: the returned buffer is unmapped,
has the payload as contents and carries the requested usage flags. -/
theorem createGPUBuffer_roundtrip (data : TypedArrayData) (usage : Nat) :
    (createGPUBuffer data usage).1.mapped = true ∧
    (createGPUBuffer data usage).1.size = data.byteLength ∧
    (createGPUBuffer data usage).1.contents = none ∧
    (createGPUBuffer data usage).2.1.mapped = true ∧
    (createGPUBuffer data usage).2.1.contents = some data ∧
    (createGPUBuffer data usage).2.2.mapped = false ∧
    (createGPUBuffer data usage).2.2.size = data.byteLength ∧
    (createGPUBuffer data usage).2.2.contents = some data ∧
    (createGPUBuffer data usage).2.2.usage = usage := by
  cases data <;> simp [createGPUBuffer]

/-- The layout entry the loop body produces for input `inp` at binding
index `i` (closed form of one iteration). -/
def layoutEntryOf (i : Nat) (inp : BindGroupInput) : LayoutEntry :=
  match inp.type with
  | .buffer => ⟨i, inp.visibility,
      .buffer (if inp.readonly then .readOnlyStorage else .defaultUniform)⟩
  | .texture => ⟨i, inp.visibility, .texture⟩
  | .sampler => ⟨i, inp.visibility, .sampler⟩

/-- The bind-group entry the loop body produces for input `inp` at binding
index `i` when the device view counter stands at `v`. -/
def groupEntryOf (i v : Nat) (inp : BindGroupInput) : BindGroupEntry :=
  match inp.type with
  | .buffer => ⟨i, .buffer (inp.buffer.getD 0)⟩
  | .texture => ⟨i, .textureView (inp.texture.getD 0) v⟩
  | .sampler => ⟨i, .sampler (inp.sampler.getD 0)⟩

/-- Number of texture descriptors in a list (each one consumes a view id). -/
def textureCount (xs : List BindGroupInput) : Nat :=
  (xs.filter (fun x => x.type == .texture)).length

theorem textureCount_cons (x : BindGroupInput) (xs : List BindGroupInput) :
    textureCount (x :: xs) =
      (if x.type = .texture then 1 else 0) + textureCount xs := by
  by_cases h : x.type = .texture
  · simp [textureCount, List.filter_cons, h]
    omega
  · simp [textureCount, List.filter_cons, h]

theorem buildBindGroupEntries_layout_length (xs : List BindGroupInput)
    (i v : Nat) : (buildBindGroupEntries xs i v).1.length = xs.length := by
  induction xs generalizing i v with
  | nil => rfl
  | cons x rest ih =>
    cases htype : x.type <;>
      simp [buildBindGroupEntries, htype, ih]

theorem buildBindGroupEntries_group_length (xs : List BindGroupInput)
    (i v : Nat) : (buildBindGroupEntries xs i v).2.1.length = xs.length := by
  induction xs generalizing i v with
  | nil => rfl
  | cons x rest ih =>
    cases htype : x.type <;>
      simp [buildBindGroupEntries, htype, ih]

theorem buildBindGroupEntries_layout_get? (xs : List BindGroupInput)
    (i v j : Nat) :
    (buildBindGroupEntries xs i v).1.get? j =
      (xs.get? j).map (fun inp => layoutEntryOf (i + j) inp) := by
  induction xs generalizing i v j with
  | nil => simp [buildBindGroupEntries]
  | cons x rest ih =>
    cases j with
    | zero =>
      cases htype : x.type <;>
        simp [buildBindGroupEntries, htype, layoutEntryOf]
    | succ j' =>
      cases htype : x.type <;>
        · simp only [buildBindGroupEntries, htype, List.get?]
          rw [ih]
          have : i + (j' + 1) = i + 1 + j' := by omega
          simp [this]

theorem buildBindGroupEntries_group_get? (xs : List BindGroupInput)
    (i v j : Nat) :
    (buildBindGroupEntries xs i v).2.1.get? j =
      (xs.get? j).map
        (fun inp => groupEntryOf (i + j) (v + textureCount (xs.take j)) inp) := by
  induction xs generalizing i v j with
  | nil => simp [buildBindGroupEntries]
  | cons x rest ih =>
    cases j with
    | zero =>
      cases htype : x.type <;>
        simp [buildBindGroupEntries, htype, groupEntryOf, textureCount]
    | succ j' =>
      cases htype : x.type
      · simp only [buildBindGroupEntries, htype, List.get?]
        rw [ih]
        have h1 : i + (j' + 1) = i + 1 + j' := by omega
        have hx : textureCount (x :: List.take j' rest) =
            textureCount (List.take j' rest) := by
          rw [textureCount_cons, htype]; simp
        simp [h1, hx]
      · simp only [buildBindGroupEntries, htype, List.get?]
        rw [ih]
        have h1 : i + (j' + 1) = i + 1 + j' := by omega
        have hx : textureCount (x :: List.take j' rest) =
            1 + textureCount (List.take j' rest) := by
          rw [textureCount_cons, htype]; simp
        simp [h1, hx, Nat.add_assoc]
      · simp only [buildBindGroupEntries, htype, List.get?]
        rw [ih]
        have h1 : i + (j' + 1) = i + 1 + j' := by omega
        have hx : textureCount (x :: List.take j' rest) =
            textureCount (List.take j' rest) := by
          rw [textureCount_cons, htype]; simp
        simp [h1, hx]

/-- C1: for every ordered bind-group descriptor list of length `N`, the
layout and the bind group produced by `_createUniformBindGroup` both have
exactly `N` entries whose binding indices are `0..N-1` in input order; a
buffer descriptor yields a read-only-storage buffer layout entry exactly
when its readonly flag is set and a default (uniform-style) buffer entry
otherwise, and binds the buffer directly; a texture descriptor binds a
freshly created view of its texture (a view id not below the device's
view counter); a sampler descriptor binds the sampler directly. -/
theorem createUniformBindGroup_spec (inputs : List BindGroupInput)
    (v₀ : Nat) :
    (createUniformBindGroup inputs v₀).1.1.length = inputs.length ∧
    (createUniformBindGroup inputs v₀).1.2.length = inputs.length ∧
    ∀ j (_ : j < inputs.length), ∃ le ge inp,
      (createUniformBindGroup inputs v₀).1.1.get? j = some le ∧
      (createUniformBindGroup inputs v₀).1.2.get? j = some ge ∧
      inputs.get? j = some inp ∧
      le.binding = j ∧ ge.binding = j ∧ le.visibility = inp.visibility ∧
      (inp.type = .buffer →
        (le.resource = .buffer .readOnlyStorage ↔ inp.readonly = true) ∧
        (inp.readonly = false → le.resource = .buffer .defaultUniform) ∧
        ge.resource = .buffer (inp.buffer.getD 0)) ∧
      (inp.type = .texture → le.resource = .texture ∧
        ∃ view, ge.resource = .textureView (inp.texture.getD 0) view ∧
          v₀ ≤ view) ∧
      (inp.type = .sampler → le.resource = .sampler ∧
        ge.resource = .sampler (inp.sampler.getD 0)) := by
  refine ⟨?_, ?_, ?_⟩
  · simpa [createUniformBindGroup] using
      buildBindGroupEntries_layout_length inputs 0 v₀
  · simpa [createUniformBindGroup] using
      buildBindGroupEntries_group_length inputs 0 v₀
  · intro j hj
    obtain ⟨inp, hinp⟩ : ∃ inp, inputs.get? j = some inp :=
      ⟨inputs.get ⟨j, hj⟩, List.get?_eq_get hj⟩
    refine ⟨layoutEntryOf j inp, groupEntryOf j (v₀ + textureCount (inputs.take j)) inp,
      inp, ?_, ?_, hinp, ?_, ?_, ?_, ?_, ?_, ?_⟩
    · have h := buildBindGroupEntries_layout_get? inputs 0 v₀ j
      rw [hinp] at h
      simpa [createUniformBindGroup] using h
    · have h := buildBindGroupEntries_group_get? inputs 0 v₀ j
      rw [hinp] at h
      simpa [createUniformBindGroup] using h
    · cases htype : inp.type <;> simp [layoutEntryOf, htype]
    · cases htype : inp.type <;> simp [groupEntryOf, htype]
    · cases htype : inp.type <;> simp [layoutEntryOf, htype]
    · intro htype
      refine ⟨?_, ?_, ?_⟩
      · cases hro : inp.readonly <;> simp [layoutEntryOf, htype, hro]
      · intro hro; simp [layoutEntryOf, htype, hro]
      · simp [groupEntryOf, htype]
    · intro htype
      exact ⟨by simp [layoutEntryOf, htype],
        v₀ + textureCount (inputs.take j), by simp [groupEntryOf, htype],
        Nat.le_add_right _ _⟩
    · intro htype
      exact ⟨by simp [layoutEntryOf, htype], by simp [groupEntryOf, htype]⟩

/-- A concrete three-descriptor list for the C1 witness: a read-only
storage buffer, a texture and a sampler. -/
def c1WitnessInputs : List BindGroupInput :=
  [ { type := .buffer, visibility := 2, readonly := true, buffer := some 11 },
    { type := .texture, visibility := 2, texture := some 12 },
    { type := .sampler, visibility := 2, sampler := some 13 } ]

/-- Witness for C1 at the concrete descriptor list, index 1 (the texture
descriptor), with the view counter at 5. -/
theorem createUniformBindGroup_spec_witness :
    ∃ le ge inp,
      (createUniformBindGroup c1WitnessInputs 5).1.1.get? 1 = some le ∧
      (createUniformBindGroup c1WitnessInputs 5).1.2.get? 1 = some ge ∧
      c1WitnessInputs.get? 1 = some inp ∧
      le.binding = 1 ∧ ge.binding = 1 ∧ le.visibility = inp.visibility ∧
      (inp.type = .buffer →
        (le.resource = .buffer .readOnlyStorage ↔ inp.readonly = true) ∧
        (inp.readonly = false → le.resource = .buffer .defaultUniform) ∧
        ge.resource = .buffer (inp.buffer.getD 0)) ∧
      (inp.type = .texture → le.resource = .texture ∧
        ∃ view, ge.resource = .textureView (inp.texture.getD 0) view ∧
          5 ≤ view) ∧
      (inp.type = .sampler → le.resource = .sampler ∧
        ge.resource = .sampler (inp.sampler.getD 0)) :=
  (createUniformBindGroup_spec c1WitnessInputs 5).2.2 1 (by decide)

/-- C7 counterexample: the claim says the caller-supplied texture's view is
bound directly (no resolve target) whenever the supplied sample count is
not greater than 1, but `_createRenderTarget` guards the MSAA branch with
JavaScript truthiness: at the concrete input `msaa = 1` it still creates an
intermediate texture (here the fresh id 100), binds that texture's view as
the attachment view and sets the caller texture (id 7) as the resolve
target. -/
theorem createRenderTarget_msaa_one_counterexample :
    ∃ att, (createRenderTarget 640 480 7 ⟨0, 0, 0, 1⟩ (some 1) none
        ⟨100, []⟩).1.colorAttachments = [att] ∧
      att.view.tex = 101 ∧ att.view.tex ≠ 7 ∧
      att.resolveTarget = some ⟨7, 100⟩ ∧ att.resolveTarget ≠ none := by
  refine ⟨⟨⟨101, 102⟩, some ⟨7, 100⟩, ⟨0, 0, 0, 1⟩, .clear, .store⟩,
    ?_, ?_, ?_, ?_, ?_⟩ <;> decide

/-- C7 (amended): for every call to `_createRenderTarget`, when a truthy
(nonzero) sample count is supplied, a fresh multisampled intermediate
texture (canvas-sized, with that sample count, with an id at or above the
device counter, logged as created) provides the color attachment's render
view and the caller-supplied texture's view becomes the resolve target;
when the sample count is absent or zero, the caller-supplied texture's
view is bound directly with no resolve target. -/
theorem createRenderTarget_msaa_spec (canvasW canvasH colorTex : Nat)
    (cv : ClearValue) (msaa : Option Nat) (depth : Option Nat)
    (st : DeviceState) :
    ∃ att, (createRenderTarget canvasW canvasH colorTex cv msaa depth
        st).1.colorAttachments = [att] ∧
      (msaa.getD 0 ≠ 0 →
        ∃ t, t ∈ (createRenderTarget canvasW canvasH colorTex cv msaa depth
            st).2.created ∧
          st.nextId ≤ t.id ∧ t.sampleCount = msaa.getD 0 ∧
          t.width = canvasW ∧ t.height = canvasH ∧
          att.view.tex = t.id ∧
          ∃ v, att.resolveTarget = some ⟨colorTex, v⟩) ∧
      (msaa.getD 0 = 0 →
        att.view.tex = colorTex ∧ att.resolveTarget = none) := by
  by_cases hm : msaa.getD 0 = 0
  · refine ⟨⟨⟨colorTex, st.nextId⟩, none, cv, .clear, .store⟩, ?_,
      fun h => absurd hm h, fun _ => ⟨rfl, rfl⟩⟩
    cases depth <;> simp [createRenderTarget, createView, hm]
  · refine ⟨⟨⟨st.nextId + 1, st.nextId + 2⟩, some ⟨colorTex, st.nextId⟩, cv,
      .clear, .store⟩, ?_, ?_, fun h => absurd h hm⟩
    · cases depth <;>
        simp [createRenderTarget, createView, deviceCreateTexture, hm]
    · intro _
      refine ⟨⟨st.nextId + 1, canvasW, canvasH, msaa.getD 0⟩, ?_,
        Nat.le_succ _, rfl, rfl, rfl, rfl, st.nextId, rfl⟩
      cases depth <;>
        simp [createRenderTarget, createView, deviceCreateTexture, hm]

/-- Witness for the amended C7 at a concrete call with sample count 4. -/
theorem createRenderTarget_msaa_spec_witness :
    ∃ att, (createRenderTarget 640 480 7 ⟨0, 0, 0, 1⟩ (some 4) none
        ⟨100, []⟩).1.colorAttachments = [att] ∧
      ∃ t, t ∈ (createRenderTarget 640 480 7 ⟨0, 0, 0, 1⟩ (some 4) none
          ⟨100, []⟩).2.created ∧
        (100 : Nat) ≤ t.id ∧ t.sampleCount = (some 4 : Option Nat).getD 0 ∧
        t.width = 640 ∧ t.height = 480 ∧ att.view.tex = t.id ∧
        ∃ v, att.resolveTarget = some ⟨7, v⟩ := by
  obtain ⟨att, hatt, hmsaa, _⟩ :=
    createRenderTarget_msaa_spec 640 480 7 ⟨0, 0, 0, 1⟩ (some 4) none ⟨100, []⟩
  exact ⟨att, hatt, hmsaa (by decide)⟩

/-- The attachment invariant of C10: every color attachment clears on load
and stores on end, and the depth-stencil attachment, when present, clears
depth to 1 and stencil to 0 (and stores both). -/
def clearsEveryAttachment (desc : RenderPassDescriptor) : Prop :=
  (∀ att ∈ desc.colorAttachments,
    att.loadOp = .clear ∧ att.storeOp = .store) ∧
  ∀ datt, desc.depthStencilAttachment = some datt →
    datt.depthLoadOp = .clear ∧ datt.depthClearValue = 1 ∧
    datt.depthStoreOp = .store ∧ datt.stencilLoadOp = .clear ∧
    datt.stencilClearValue = 0 ∧ datt.stencilStoreOp = .store

/-- Helper: the invariant holds for every descriptor `_createRenderTarget`
produces, and the depth-stencil attachment is present exactly when a depth
texture was supplied. -/
theorem createRenderTarget_clears (canvasW canvasH colorTex : Nat)
    (cv : ClearValue) (msaa : Option Nat) (depth : Option Nat)
    (st : DeviceState) :
    clearsEveryAttachment
      (createRenderTarget canvasW canvasH colorTex cv msaa depth st).1 ∧
    ((createRenderTarget canvasW canvasH colorTex cv msaa depth
        st).1.depthStencilAttachment.isSome ↔ depth.isSome) := by
  by_cases hm : msaa.getD 0 = 0 <;> cases depth <;>
    simp [createRenderTarget, createView, deviceCreateTexture, hm,
      clearsEveryAttachment]

/-- C10: every render pass descriptor produced by `_createRenderTarget` —
for all canvas sizes, color textures, clear values, MSAA settings, depth
textures and device states, in both the part_000 version and the
webgpu-context.ts variant — and in particular the pass recorded by every
frame of the animated mesh renderer, uses load op `clear` with store op
`store` on its color attachment, and clears depth to 1.0 and stencil to 0
when a depth texture is supplied (the depth-stencil attachment existing
exactly then); no pass loads previous attachment contents. -/
theorem renderTarget_always_clears (canvasW canvasH colorTex : Nat)
    (cv : ClearValue) (msaa : Option Nat) (depth : Option Nat)
    (st : DeviceState) (surfaceTex : Nat) (bufs : ObjPersistentBuffers)
    (currentW currentH : Nat) (s : ObjFrameState) :
    clearsEveryAttachment
      (createRenderTarget canvasW canvasH colorTex cv msaa depth st).1 ∧
    ((createRenderTarget canvasW canvasH colorTex cv msaa depth
        st).1.depthStencilAttachment.isSome ↔ depth.isSome) ∧
    clearsEveryAttachment
      (createRenderTargetLegacy canvasW canvasH colorTex msaa depth st).1 ∧
    clearsEveryAttachment
      (objModelFrame msaa surfaceTex bufs currentW currentH s).2.pass := by
  refine ⟨(createRenderTarget_clears _ _ _ _ _ _ _).1,
    (createRenderTarget_clears _ _ _ _ _ _ _).2,
    (createRenderTarget_clears _ _ _ _ _ _ _).1, ?_⟩
  show clearsEveryAttachment (objModelFrame _ _ _ _ _ _).2.pass
  by_cases hr : (currentW != s.canvasW || currentH != s.canvasH) = true <;>
    simp only [objModelFrame, hr, Bool.false_eq_true, if_true, if_false] <;>
    exact (createRenderTarget_clears _ _ _ _ _ _ _).1

/-- Witness for C10 at a concrete call: depth texture supplied, MSAA off. -/
theorem renderTarget_always_clears_witness :
    clearsEveryAttachment
      (createRenderTarget 640 480 7 ⟨1, 0, 0, 1⟩ none (some 3) ⟨10, []⟩).1 ∧
    ((createRenderTarget 640 480 7 ⟨1, 0, 0, 1⟩ none (some 3)
        ⟨10, []⟩).1.depthStencilAttachment.isSome ↔ (some 3 : Option Nat).isSome) ∧
    clearsEveryAttachment
      (createRenderTargetLegacy 640 480 7 none (some 3) ⟨10, []⟩).1 ∧
    clearsEveryAttachment
      (objModelFrame none 7 ⟨1, 2, 3, 4, 5⟩ 640 480 ⟨640, 480, 3, ⟨10, []⟩⟩).2.pass :=
  renderTarget_always_clears 640 480 7 ⟨1, 0, 0, 1⟩ none (some 3) ⟨10, []⟩ 7
    ⟨1, 2, 3, 4, 5⟩ 640 480 ⟨640, 480, 3, ⟨10, []⟩⟩

/-- C5: in the per-frame closure of `render_obj_model`, whenever the
drawable surface's current backing-store size differs from the tracked
canvas size, the frame reconfigures the surface, destroys the old depth
texture, creates a fresh one (which becomes the tracked depth texture),
updates the tracked dimensions to the new size, and updates the
projection-matrix uniform buffer through a `copyBufferToBuffer` whose
source is a staging buffer freshly created this frame; when the size is
unchanged, none of these occur — no reconfigure, no texture destroyed or
created, no projection staging buffer, dimensions and depth texture
unchanged, and no copy targets the projection buffer. -/
theorem objModelFrame_resize_spec (msaa : Option Nat) (surfaceTex : Nat)
    (bufs : ObjPersistentBuffers) (currentW currentH : Nat)
    (s : ObjFrameState)
    (hproj : bufs.proj ≠ bufs.tf ∧ bufs.proj ≠ bufs.nm ∧
      bufs.proj ≠ bufs.vd ∧ bufs.proj ≠ bufs.ld) :
    (¬(currentW = s.canvasW ∧ currentH = s.canvasH) →
      (objModelFrame msaa surfaceTex bufs currentW currentH s).2.reconfigured
          = true ∧
      (objModelFrame msaa surfaceTex bufs currentW currentH
          s).2.destroyedTextures = [s.depthTexture] ∧
      (∃ d, (objModelFrame msaa surfaceTex bufs currentW currentH
          s).2.createdDepthTexture = some d ∧ s.dev.nextId ≤ d ∧
        (objModelFrame msaa surfaceTex bufs currentW currentH
          s).1.depthTexture = d) ∧
      (objModelFrame msaa surfaceTex bufs currentW currentH s).1.canvasW
          = currentW ∧
      (objModelFrame msaa surfaceTex bufs currentW currentH s).1.canvasH
          = currentH ∧
      (∃ p, (objModelFrame msaa surfaceTex bufs currentW currentH
          s).2.projStagingBuffer = some p ∧ s.dev.nextId ≤ p ∧
        (p, bufs.proj) ∈ (objModelFrame msaa surfaceTex bufs currentW
          currentH s).2.copies)) ∧
    ((currentW = s.canvasW ∧ currentH = s.canvasH) →
      (objModelFrame msaa surfaceTex bufs currentW currentH s).2.reconfigured
          = false ∧
      (objModelFrame msaa surfaceTex bufs currentW currentH
          s).2.destroyedTextures = [] ∧
      (objModelFrame msaa surfaceTex bufs currentW currentH
          s).2.createdDepthTexture = none ∧
      (objModelFrame msaa surfaceTex bufs currentW currentH
          s).2.projStagingBuffer = none ∧
      (objModelFrame msaa surfaceTex bufs currentW currentH s).1.canvasW
          = s.canvasW ∧
      (objModelFrame msaa surfaceTex bufs currentW currentH s).1.canvasH
          = s.canvasH ∧
      (objModelFrame msaa surfaceTex bufs currentW currentH
          s).1.depthTexture = s.depthTexture ∧
      ∀ src dst, (src, dst) ∈ (objModelFrame msaa surfaceTex bufs currentW
          currentH s).2.copies → dst ≠ bufs.proj) := by
  obtain ⟨h1, h2, h3, h4⟩ := hproj
  constructor
  · intro hne
    have hr : (currentW != s.canvasW || currentH != s.canvasH) = true := by
      rcases Decidable.not_and_iff_or_not.mp hne with h | h <;>
        simp [bne_iff_ne, h]
    refine ⟨?_, ?_, ⟨s.dev.nextId, ?_, le_refl _, ?_⟩, ?_, ?_,
      ⟨s.dev.nextId + 1, ?_, Nat.le_succ _, ?_⟩⟩ <;>
      simp [objModelFrame, hr, createBufferId, deviceCreateTexture,
        createRenderTarget, createView]
  · intro heq
    have hr : (currentW != s.canvasW || currentH != s.canvasH) = false := by
      simp [bne_iff_ne, heq.1, heq.2]
    refine ⟨?_, ?_, ?_, ?_, ?_, ?_, ?_, ?_⟩ <;>
      simp [objModelFrame, hr, createBufferId, deviceCreateTexture,
        createRenderTarget, createView]
    intro src dst hmem
    rcases hmem with h | h | h | h <;> (rw [h.2]; omega)

/-- Witness for C5 at a concrete resize: tracked size 640×480, current
size 800×600, distinct persistent buffer ids 1..5. -/
theorem objModelFrame_resize_spec_witness :
    (objModelFrame none 7 ⟨1, 2, 3, 4, 5⟩ 800 600
        ⟨640, 480, 9, ⟨20, []⟩⟩).2.reconfigured = true ∧
    (objModelFrame none 7 ⟨1, 2, 3, 4, 5⟩ 800 600
        ⟨640, 480, 9, ⟨20, []⟩⟩).2.destroyedTextures = [9] ∧
    (∃ d, (objModelFrame none 7 ⟨1, 2, 3, 4, 5⟩ 800 600
        ⟨640, 480, 9, ⟨20, []⟩⟩).2.createdDepthTexture = some d ∧
      (20 : Nat) ≤ d ∧
      (objModelFrame none 7 ⟨1, 2, 3, 4, 5⟩ 800 600
        ⟨640, 480, 9, ⟨20, []⟩⟩).1.depthTexture = d) ∧
    (objModelFrame none 7 ⟨1, 2, 3, 4, 5⟩ 800 600
        ⟨640, 480, 9, ⟨20, []⟩⟩).1.canvasW = 800 ∧
    (objModelFrame none 7 ⟨1, 2, 3, 4, 5⟩ 800 600
        ⟨640, 480, 9, ⟨20, []⟩⟩).1.canvasH = 600 ∧
    (∃ p, (objModelFrame none 7 ⟨1, 2, 3, 4, 5⟩ 800 600
        ⟨640, 480, 9, ⟨20, []⟩⟩).2.projStagingBuffer = some p ∧
      (20 : Nat) ≤ p ∧
      (p, (1 : Nat)) ∈ (objModelFrame none 7 ⟨1, 2, 3, 4, 5⟩ 800 600
        ⟨640, 480, 9, ⟨20, []⟩⟩).2.copies) :=
  (objModelFrame_resize_spec none 7 ⟨1, 2, 3, 4, 5⟩ 800 600
    ⟨640, 480, 9, ⟨20, []⟩⟩ (by decide)).1 (by decide)

/-- The spec's reading of "next power of two": the least power of two
greater than or equal to `m`. -/
def isLeastPow2Geq (k m : Nat) : Prop :=
  (∃ j, k = 2 ^ j) ∧ m ≤ k ∧ ∀ n, (∃ j, n = 2 ^ j) → m ≤ n → k ≤ n

/-- C8 counterexample: at measured width 4 (so `ceil(w) = 4`, itself a
power of two) the texture width computed by `render_text` is 8, which is
not the smallest power of two ≥ 4: the claim's two width characterizations
disagree and the code follows the `1 << (32 - clz32 ...)` one. -/
theorem renderText_width_counterexample :
    (renderTextTextureSize 4 32).1 = 8 ∧
    ¬ isLeastPow2Geq (renderTextTextureSize 4 32).1 ⌈(4 : ℚ)⌉₊ := by
  have hceil : ⌈(4 : ℚ)⌉₊ = 4 := by norm_num
  have hsize : (4 : Nat).size = 3 := by
    have hle : (4 : Nat).size ≤ 3 := Nat.size_le.mpr (by norm_num)
    have hlt : 2 < (4 : Nat).size := Nat.lt_size.mpr (by norm_num)
    omega
  have hval : (renderTextTextureSize 4 32).1 = 8 := by
    show renderTextNearestPow2 4 = 8
    rw [renderTextNearestPow2, hceil, clz32, hsize]
    decide
  refine ⟨hval, fun h => ?_⟩
  obtain ⟨-, -, hmin⟩ := h
  have h4 : (renderTextTextureSize 4 32).1 ≤ 4 :=
    hmin 4 ⟨2, rfl⟩ (by norm_num)
  rw [hval] at h4
  omega

/-- C8 (amended): for every measured text width `w > 0` whose ceiling is
below `2^32`, the GPU texture created by `render_text` has width
`1 << (32 - clz32 (ceil w))`, which equals `2 ^ (ceil w).size` and is the
smallest power of two strictly greater than `ceil w`, and height equal to
the font size. -/
theorem renderText_texture_size_spec (w : ℚ) (fontSize : Nat) (_hw : 0 < w)
    (hsmall : ⌈w⌉₊ < 2 ^ 32) :
    (renderTextTextureSize w fontSize).2 = fontSize ∧
    (renderTextTextureSize w fontSize).1 = 1 <<< (32 - clz32 ⌈w⌉₊) ∧
    (renderTextTextureSize w fontSize).1 = 2 ^ (⌈w⌉₊).size ∧
    ⌈w⌉₊ < (renderTextTextureSize w fontSize).1 ∧
    (∃ j, (renderTextTextureSize w fontSize).1 = 2 ^ j) ∧
    ∀ n, (∃ j, n = 2 ^ j) → ⌈w⌉₊ < n →
      (renderTextTextureSize w fontSize).1 ≤ n := by
  have hsize : (⌈w⌉₊).size ≤ 32 := Nat.size_le.mpr hsmall
  have hpow : (renderTextTextureSize w fontSize).1 = 2 ^ (⌈w⌉₊).size := by
    show 1 <<< (32 - clz32 ⌈w⌉₊) = 2 ^ (⌈w⌉₊).size
    rw [Nat.one_shiftLeft, clz32]
    congr 1
    omega
  refine ⟨rfl, rfl, hpow, ?_, ⟨(⌈w⌉₊).size, hpow⟩, ?_⟩
  · rw [hpow]; exact Nat.lt_size_self _
  · rintro n ⟨j, rfl⟩ hn
    rw [hpow]
    exact Nat.pow_le_pow_right (by norm_num) (Nat.size_le.mpr hn)

/-- Witness for the amended C8 at measured width 5 and font size 32:
`ceil 5 = 5`, whose size is 3, so the texture is 8×32. -/
theorem renderText_texture_size_spec_witness :
    (renderTextTextureSize 5 32).2 = 32 ∧
    (renderTextTextureSize 5 32).1 = 1 <<< (32 - clz32 ⌈(5 : ℚ)⌉₊) ∧
    (renderTextTextureSize 5 32).1 = 2 ^ (⌈(5 : ℚ)⌉₊).size ∧
    ⌈(5 : ℚ)⌉₊ < (renderTextTextureSize 5 32).1 ∧
    (∃ j, (renderTextTextureSize 5 32).1 = 2 ^ j) ∧
    ∀ n, (∃ j, n = 2 ^ j) → ⌈(5 : ℚ)⌉₊ < n →
      (renderTextTextureSize 5 32).1 ≤ n :=
  renderText_texture_size_spec 5 32 (by decide) (by decide)

/-- C6 counterexample: the claim's final conjunct — each pass consumes the
immediately preceding pass's texture outputs — fails at the fourth pass:
the paper-surface normal pass reads only the external paper image, none of
the outputs of the horizontal blur/compose pass, so the five passes do not
form the strict chain the claim states (pass 4 could run before passes
1-3 without changing any input it reads). -/
theorem watercolor_strict_chain_counterexample :
    watercolorPasses.length = 5 ∧ ¬ consumesPreviousPass watercolorPasses := by
  refine ⟨rfl, fun h => ?_⟩
  obtain ⟨t, hin, hout⟩ := h 2 (by decide)
  have hi : (watercolorPasses.get ⟨2 + 1, by decide⟩).inputs =
      [WCTexture.paperImage] := rfl
  have ho : (watercolorPasses.get ⟨2, by decide⟩).outputs =
      [WCTexture.hBlurred, WCTexture.hBleeded] := rfl
  rw [hi] at hin
  rw [ho] at hout
  have ht : t = WCTexture.paperImage := by simpa using hin
  subst ht
  simp at hout

/-- C6 (amended): the watercolor renderer's five passes run in the fixed
order scene, vertical blur, horizontal blur/compose, paper-surface normal,
stylize; pass 3's inputs are exactly the control output of pass 1 and the
blurred/bled outputs of pass 2; passes 2, 3 and 5 each consume the
immediately preceding pass's outputs, while pass 4 consumes only the
external paper image and its output is consumed by pass 5 — so the chain
is a data-dependency order in which every texture a pass reads is produced
by an earlier pass or supplied externally, rather than a strict
consume-the-previous-pass chain. -/
theorem watercolor_pass_chain_spec :
    watercolorPasses.map (fun p => p.shader) =
      ["scene", "mrt_blur_v", "mrt_blur_h", "surface", "stylize"] ∧
    (watercolorPasses.getD 2 ⟨"", [], []⟩).inputs =
      [.vBlurred, .vBleeded, .sceneControl] ∧
    WCTexture.vBlurred ∈ (watercolorPasses.getD 1 ⟨"", [], []⟩).outputs ∧
    WCTexture.vBleeded ∈ (watercolorPasses.getD 1 ⟨"", [], []⟩).outputs ∧
    WCTexture.sceneControl ∈ (watercolorPasses.getD 0 ⟨"", [], []⟩).outputs ∧
    WCTexture.sceneColor ∈ (watercolorPasses.getD 1 ⟨"", [], []⟩).inputs ∧
    WCTexture.sceneColor ∈ (watercolorPasses.getD 0 ⟨"", [], []⟩).outputs ∧
    WCTexture.vBlurred ∈ (watercolorPasses.getD 2 ⟨"", [], []⟩).inputs ∧
    WCTexture.paperSurface ∈ (watercolorPasses.getD 4 ⟨"", [], []⟩).inputs ∧
    WCTexture.paperSurface ∈ (watercolorPasses.getD 3 ⟨"", [], []⟩).outputs ∧
    (watercolorPasses.getD 3 ⟨"", [], []⟩).inputs = [.paperImage] := by
  decide

theorem two_pi_sigma_sq_pos : 0 < 2 * Real.pi * gaussSigma * gaussSigma := by
  have h := Real.pi_pos
  rw [gaussSigma]
  positivity

theorem gaussCoeff_pos :
    0 < 1 / Real.sqrt (2 * Real.pi * gaussSigma * gaussSigma) :=
  one_div_pos.mpr (Real.sqrt_pos.mpr two_pi_sigma_sq_pos)

theorem gaussianSample_pos (y : ℤ) : 0 < gaussianSample y :=
  mul_pos gaussCoeff_pos (Real.exp_pos _)

theorem gaussianSample_negArg (y : ℤ) :
    gaussianSample (-y) = gaussianSample y := by
  unfold gaussianSample
  push_cast
  ring_nf

theorem gaussianSample_zero_eq :
    gaussianSample 0 = 1 / Real.sqrt (2 * Real.pi * gaussSigma * gaussSigma) := by
  unfold gaussianSample
  norm_num

theorem gaussianSample_le_center (y : ℤ) :
    gaussianSample y ≤ gaussianSample 0 := by
  unfold gaussianSample
  refine mul_le_mul_of_nonneg_left ?_ (le_of_lt gaussCoeff_pos)
  refine Real.exp_le_exp.mpr ?_
  have hy : (0 : ℝ) ≤ (y : ℝ) * (y : ℝ) := mul_self_nonneg _
  have hd : (0 : ℝ) < 2 * gaussSigma * gaussSigma := by
    rw [gaussSigma]; norm_num
  have h1 : -((y : ℝ) * (y : ℝ)) / (2 * gaussSigma * gaussSigma) ≤ 0 :=
    div_nonpos_iff.mpr (Or.inr ⟨neg_nonpos.mpr hy, le_of_lt hd⟩)
  simpa using h1

theorem gaussianSample_le_coeff (y : ℤ) :
    gaussianSample y ≤ 1 / Real.sqrt (2 * Real.pi * gaussSigma * gaussSigma) :=
  gaussianSample_zero_eq ▸ gaussianSample_le_center y

theorem gaussKValues_length : gaussKValues.length = 17 := by
  simp [gaussKValues]

theorem gaussKValues_get? (i : Nat) (h : i < 17) :
    gaussKValues.get? i = some (gaussianSample ((i : ℤ) - 8)) := by
  rw [gaussKValues, List.get?_map, List.get?_range h, Option.map_some']

theorem gaussKValues_ne_nil : gaussKValues ≠ [] := by
  intro h
  have := gaussKValues_length
  rw [h] at this
  simp at this

theorem gaussIntensity_pos : 0 < gaussIntensity :=
  List.sum_pos gaussKValues
    (by
      intro x hx
      rw [gaussKValues, List.mem_map] at hx
      obtain ⟨i, _, rfl⟩ := hx
      exact gaussianSample_pos _)
    gaussKValues_ne_nil

theorem sqrt_two_pi_sigma_sq_gt_17 :
    (17 : ℝ) < Real.sqrt (2 * Real.pi * gaussSigma * gaussSigma) := by
  rw [gaussSigma, Real.lt_sqrt (by norm_num)]
  nlinarith [Real.pi_gt_three]

theorem gaussIntensity_lt_one : gaussIntensity < 1 := by
  have hb : ∀ x ∈ gaussKValues,
      x ≤ 1 / Real.sqrt (2 * Real.pi * gaussSigma * gaussSigma) := by
    intro x hx
    rw [gaussKValues, List.mem_map] at hx
    obtain ⟨i, _, rfl⟩ := hx
    exact gaussianSample_le_coeff _
  have hsum := List.sum_le_card_nsmul gaussKValues _ hb
  rw [gaussKValues_length, nsmul_eq_mul] at hsum
  have hc : 1 / Real.sqrt (2 * Real.pi * gaussSigma * gaussSigma) <
      1 / 17 :=
    one_div_lt_one_div_of_lt (by norm_num) sqrt_two_pi_sigma_sq_gt_17
  calc gaussIntensity
      ≤ (17 : ℕ) * (1 / Real.sqrt (2 * Real.pi * gaussSigma * gaussSigma)) :=
        hsum
    _ < (17 : ℕ) * (1 / 17) := by
        exact mul_lt_mul_of_pos_left hc (by norm_num)
    _ = 1 := by norm_num

/-- C4: the Gaussian kernel generated by `render_gaussian_blur` with
`kernelSize = 8`, `sigma = 8` is the array of the 17 values
`(1/sqrt(2 π σ²)) · exp(-y²/(2 σ²))` for `y = -8..8` in order; it is
symmetric about its center, its center (9th) value is the maximum, and the
data uploaded to the kernel storage buffer is these raw samples — which
differ from the mass-normalized kernel, since the samples' total mass is
strictly between 0 and 1. -/
theorem gaussian_kernel_spec :
    gaussKernelBufferData = gaussKValues ∧
    gaussKValues.length = 17 ∧
    (∀ i, i < 17 → gaussKValues.get? i = some (gaussianSample ((i : ℤ) - 8))) ∧
    (∀ i, i < 17 → gaussKValues.get? i = gaussKValues.get? (16 - i)) ∧
    (∀ i, i < 17 → ∃ a b, gaussKValues.get? i = some a ∧
      gaussKValues.get? 8 = some b ∧ a ≤ b) ∧
    gaussKernelBufferData ≠ gaussKValues.map (fun x => x / gaussIntensity) := by
  refine ⟨rfl, gaussKValues_length, fun i h => gaussKValues_get? i h,
    ?_, ?_, ?_⟩
  · intro i h
    rw [gaussKValues_get? i h, gaussKValues_get? (16 - i) (by omega)]
    have hcast : ((16 - i : ℕ) : ℤ) = 16 - (i : ℤ) := by
      rw [Nat.cast_sub (by omega)]
      norm_num
    rw [hcast]
    have harg : (16 : ℤ) - (i : ℤ) - 8 = -((i : ℤ) - 8) := by ring
    rw [harg, gaussianSample_negArg]
  · intro i h
    refine ⟨gaussianSample ((i : ℤ) - 8), gaussianSample 0,
      gaussKValues_get? i h, ?_, gaussianSample_le_center _⟩
    have := gaussKValues_get? 8 (by norm_num)
    simpa using this
  · intro heq
    have h8 := congrArg (fun l => l.get? 8) heq
    simp only [] at h8
    rw [show gaussKernelBufferData = gaussKValues from rfl] at h8
    rw [List.get?_map, gaussKValues_get? 8 (by norm_num)] at h8
    simp only [gaussKValues_get? 8 (by norm_num), Option.map_some'] at h8
    have hval : gaussianSample ((8 : ℤ) - 8) =
        gaussianSample ((8 : ℤ) - 8) / gaussIntensity := by
      simpa using h8
    have hzero : ((8 : ℤ) - 8) = 0 := by norm_num
    rw [hzero] at hval
    have hg0 : 0 < gaussianSample 0 := gaussianSample_pos 0
    have hlt : gaussianSample 0 < gaussianSample 0 / gaussIntensity := by
      rw [lt_div_iff₀ gaussIntensity_pos]
      exact (mul_lt_iff_lt_one_right hg0).mpr gaussIntensity_lt_one
    rw [← hval] at hlt
    exact lt_irrefl _ hlt

/-- Witness for C4: the symmetry instance at index 2 and the center-maximum
instance at index 3. -/
theorem gaussian_kernel_spec_witness :
    gaussKValues.get? 2 = gaussKValues.get? 14 ∧
    (∃ a b, gaussKValues.get? 3 = some a ∧ gaussKValues.get? 8 = some b ∧
      a ≤ b) :=
  ⟨gaussian_kernel_spec.2.2.2.1 2 (by decide),
   gaussian_kernel_spec.2.2.2.2.1 3 (by decide)⟩

end NPR
